import Mathlib

/-!
Verification of the core request/response pipeline of the expert-persona
LLM app (src/app.py).  The stateful Python code is shallowly embedded as
pure functions over an explicit `World` describing the external
environment (secrets store, process environment, client library
behaviour); `run_llm` returns the produced string (or an uncaught
exception, modelled by `Except.error`), the updated process environment,
and a trace of the externally visible effects it performed.
-/

namespace App

/-- A persona entry of the `EXPERTS` table (src/app.py lines 48-66):
a display label and a system-instruction string. -/
structure Persona where
  label : String
  system : String
deriving DecidableEq

/-- The "A" persona (src/app.py lines 49-57). -/
def personaA : Persona :=
  { label := "A｜生成AI実装コンサルタント"
    system :=
      "あなたは生成AI/LLM実装に強いコンサルタントである。" ++
      "要件定義→設計→実装→評価の順で、短く具体的に助言する。" ++
      "箇条書きを好み、前提・制約・リスクも簡潔に触れる。" ++
      "冗長な比喩は避け、日本語で明快に述べる。" }

/-- The "B" persona (src/app.py lines 58-65). -/
def personaB : Persona :=
  { label := "B｜空港アクセス・モビリティアナリスト"
    system :=
      "あなたは空港アクセス/モビリティのアナリストである。" ++
      "交通モード比較、需要見立て、運用・収益の観点から助言する。" ++
      "推定値は根拠と不確実性を明示し、日本語で簡潔に述べる。" }

/-- The `EXPERTS` dict (src/app.py line 48), as an insertion-ordered
association list, matching Python dict semantics for `get` / `[]`. -/
def EXPERTS : List (String × Persona) := [("A", personaA), ("B", personaB)]

/-- Python truthiness of an optional string: `None` and `""` are falsy. -/
def truthyO : Option String → Bool
  | none => false
  | some s => s ≠ ""

/-- Observable state of the Streamlit secrets store as consulted by
`resolve_openai_api_key` (src/app.py lines 71-82). -/
structure SecretsCfg where
  /-- `hasattr(st, "secrets")` -/
  hasSecrets : Bool
  /-- whether any access of the store raises (the `except Exception` path) -/
  raises : Bool
  /-- `st.secrets.get("OPENAI_API_KEY", None)` -/
  topKey : Option String
  /-- `"openai" in st.secrets` -/
  hasOpenaiBlock : Bool
  /-- `isinstance(blk, dict)` for the `openai` block -/
  blockIsDict : Bool
  /-- `blk.get("api_key")` -/
  blockApiKey : Option String
deriving DecidableEq

/-- The process environment, an association list keyed by variable name
(first binding wins, as with a mapping). -/
def Env := List (String × String)

/-- Read an environment variable (`os.getenv`). -/
def envGet (e : Env) (k : String) : Option String := List.lookup k e

/-- Set an environment variable (`os.environ[k] = v`). -/
def envSet (e : Env) (k v : String) : Env :=
  (k, v) :: List.filter (fun p => p.1 ≠ k) e

/-- The value held by the local variable `key` after src/app.py lines
74-78 (top-level secret, else the `openai.api_key` sub-key when the
top-level one is falsy and the block exists and is a dict). -/
def secretsKeyLookup (cfg : SecretsCfg) : Option String :=
  let key := cfg.topKey
  if ¬ truthyO key ∧ cfg.hasOpenaiBlock then
    if cfg.blockIsDict then cfg.blockApiKey else key
  else key

/-- What the `try` block of src/app.py lines 72-82 returns from the
secrets store: `none` when the store is missing, raises, or holds no
truthy key. -/
def resolveFromSecrets (cfg : SecretsCfg) : Option String :=
  if cfg.raises then none
  else if cfg.hasSecrets then
    let key := secretsKeyLookup cfg
    if truthyO key then key else none
  else none

/-- `resolve_openai_api_key` (src/app.py lines 71-86): secrets store
first (errors swallowed), then the environment variable, else missing. -/
def resolve_openai_api_key (cfg : SecretsCfg) (env : Env) :
    Option String × String :=
  match resolveFromSecrets cfg with
  | some k => (some k, "secrets")
  | none =>
    let key := envGet env "OPENAI_API_KEY"
    if truthyO key then (key, "env") else (none, "missing")

/-- Message roles used by the prompt (SystemMessage / HumanMessage). -/
inductive Role where
  | system
  | user
deriving DecidableEq

/-- A chat message. -/
structure ChatMessage where
  role : Role
  content : String
deriving DecidableEq

/-- The prompt built at src/app.py line 149:
`[SystemMessage(content=system_msg), HumanMessage(content=user_text)]`. -/
def build_messages (system_msg user_text : String) : List ChatMessage :=
  [⟨Role.system, system_msg⟩, ⟨Role.user, user_text⟩]

/-- One `kwargs` dictionary of the construction loop
(src/app.py lines 154-159). `modelKw` records which keyword carried the
model name (`"model"` or `"model_name"`). -/
structure CtorKwargs where
  modelKw : String
  modelName : String
  temperature : ℚ
  openai_api_key : Option String
deriving DecidableEq

/-- The four construction attempts, in source order
(src/app.py lines 154-159). -/
def ctorAttempts (api_key : String) : List CtorKwargs :=
  [ ⟨"model", "gpt-4o-mini", 3/10, none⟩,
    ⟨"model_name", "gpt-4o-mini", 3/10, none⟩,
    ⟨"model", "gpt-4o-mini", 3/10, some api_key⟩,
    ⟨"model_name", "gpt-4o-mini", 3/10, some api_key⟩ ]

/-- A generation object inside `res.generations[0][0]`
(src/app.py lines 195-199).  `message = some m` models
`hasattr(g0, "message")`, with `m = some c` modelling
`hasattr(g0.message, "content")`; `text` models the `text` attribute. -/
structure GenObj where
  message : Option (Option String)
  text : Option String
deriving DecidableEq

/-- Observable shape of a raw response object, as consulted by the
extraction step (src/app.py lines 186-207).  `str` is `str(res)`. -/
structure Resp where
  /-- `res.content` when `hasattr(res, "content")` -/
  content : Option String
  /-- `isinstance(res, dict)` -/
  isDict : Bool
  /-- `res["content"]` when `"content" in res` -/
  dictContent : Option String
  /-- `res.generations` when `hasattr(res, "generations")` -/
  generations : Option (List (List GenObj))
  /-- `str(res)` -/
  str : String
  /-- whether introspection inside the `try` raises -/
  raisesDuringExtract : Bool
deriving DecidableEq

/-- The output-extraction step (src/app.py lines 186-207): direct
`content` attribute, else dict `"content"` key, else first generation of
the first batch (nested message content, else its `text`), else
`str(res)`; any introspection error also yields `str(res)`. -/
def extract_text (r : Resp) : String :=
  if r.raisesDuringExtract then r.str
  else
    match r.content with
    | some c => c
    | none =>
      if r.isDict && r.dictContent.isSome then r.dictContent.getD r.str
      else
        match r.generations with
        | some ((g0 :: _) :: _) =>
          match g0.message with
          | some (some c) => c
          | _ =>
            match g0.text with
            | some t => t
            | none => r.str
        | some _ => r.str
        | none => r.str

/-- Behaviour of a constructed client under each of the four invocation
forms of src/app.py lines 168-181. -/
structure ClientBehavior where
  /-- outcome of `llm.invoke(messages)` -/
  invokeRes : Except String Resp
  /-- outcome of `llm(messages)` -/
  callRes : Except String Resp
  /-- `hasattr(llm, "predict_messages")` -/
  hasPredict : Bool
  /-- outcome of `llm.predict_messages(messages)` -/
  predictRes : Except String Resp
  /-- `hasattr(llm, "generate")` -/
  hasGenerate : Bool
  /-- outcome of `llm.generate([messages])` -/
  generateRes : Except String Resp

/-- Externally visible effects of one `run_llm` call, in order. -/
inductive Effect where
  | setEnv (k v : String)
  | importLC
  | construct (kw : CtorKwargs)
  | callInvoke (msgs : List ChatMessage)
  | callDirect (msgs : List ChatMessage)
  | callPredict (msgs : List ChatMessage)
  | callGenerate (batch : List (List ChatMessage))
deriving DecidableEq

/-- Whether an effect is an invocation attempt on the client. -/
def Effect.isCall : Effect → Bool
  | Effect.callInvoke _ => true
  | Effect.callDirect _ => true
  | Effect.callPredict _ => true
  | Effect.callGenerate _ => true
  | _ => false

/-- The external world one `run_llm` call runs in: the secrets store and
environment, whether the LangChain import fails (`lazy_import_langchain`,
src/app.py lines 91-122, summarised by its error value), which
construction attempts raise, the behaviour of the constructed client,
and the text `traceback.format_exc(limit=2)` would produce. -/
structure World where
  secrets : SecretsCfg
  env : Env
  importErr : Option String
  ctorFails : CtorKwargs → Option String
  client : CtorKwargs → ClientBehavior
  tb : String

/-- The fixed message returned when no API key is found
(src/app.py line 131). -/
def missingKeyMsg : String :=
  "OpenAI APIキーが見つかりませんでした。Cloudでは App → Settings → Secrets に `OPENAI_API_KEY` を設定してください。"

/-- The message returned when the LangChain import fails
(src/app.py lines 137-145). -/
def importFailMsg (e : String) : String :=
  "LangChain の読み込みに失敗しました。requirements.txt を次の例で用意してください：\n" ++
  "streamlit>=1.36\n" ++
  "langchain>=0.3.0\n" ++
  "langchain-openai>=0.1.21\n" ++
  "openai>=1.51.0\n" ++
  "python-dotenv>=1.0.1\n\n" ++
  "詳細: " ++ e

/-- The message returned when all four constructions fail
(src/app.py line 166). -/
def ctorFailMsg (lastErr : String) : String :=
  "モデル初期化に失敗しました（gpt-4o-mini）。詳細: " ++ lastErr

/-- The message returned when invocation fails (src/app.py line 184). -/
def invokeFailMsg (e tb : String) : String :=
  "LLM呼び出しに失敗しました。詳細: " ++ e ++ "\n" ++ tb

/-- The error message of the `RuntimeError` raised when neither
`predict_messages` nor `generate` exists (src/app.py line 181). -/
def noMethodMsg : String := "互換呼び出しメソッドが見つかりません。"

/-- The metadata suffix appended on success (src/app.py line 209). -/
def metaSuffix (label source : String) : String :=
  "\n\n---\n（使用モード: " ++ label ++ "｜モデル: gpt-4o-mini｜キー取得元: " ++ source ++ "）"

/-- Python `str` of an optional error (`f"{last_err}"` with
`last_err = None` prints `None`). -/
def optStr : Option String → String
  | none => "None"
  | some s => s

/-- The model-construction loop (src/app.py lines 152-164): try each
kwargs in order, keep the last error, stop at the first success.
Returns the constructed client's kwargs (if any), the last error, and
the trace of attempts. -/
def constructLoop (fails : CtorKwargs → Option String) :
    List CtorKwargs → Option String →
    Option CtorKwargs × Option String × List Effect
  | [], last => (none, last, [])
  | kw :: rest, last =>
    match fails kw with
    | none => (some kw, last, [Effect.construct kw])
    | some e =>
      let r := constructLoop fails rest (some e)
      (r.1, r.2.1, Effect.construct kw :: r.2.2)

/-- The nested invocation fallback (src/app.py lines 169-181):
`invoke`, else direct call, else `predict_messages` when present, else
`generate` on the batch `[messages]` when present, else a
`RuntimeError`.  An error escaping the chain is the one the outer
handler at line 182 receives. -/
def invokeClient (c : ClientBehavior) (messages : List ChatMessage) :
    Except String Resp × List Effect :=
  match c.invokeRes with
  | Except.ok r => (Except.ok r, [Effect.callInvoke messages])
  | Except.error _ =>
    match c.callRes with
    | Except.ok r =>
        (Except.ok r, [Effect.callInvoke messages, Effect.callDirect messages])
    | Except.error _ =>
      if c.hasPredict then
        (c.predictRes,
         [Effect.callInvoke messages, Effect.callDirect messages,
          Effect.callPredict messages])
      else if c.hasGenerate then
        (c.generateRes,
         [Effect.callInvoke messages, Effect.callDirect messages,
          Effect.callGenerate [messages]])
      else
        (Except.error noMethodMsg,
         [Effect.callInvoke messages, Effect.callDirect messages])

/-- Result of one `run_llm` call: the returned string (or an uncaught
exception as `Except.error`), the process environment afterwards, and
the effect trace. -/
structure RunResult where
  out : Except String String
  env : Env
  effects : List Effect

/-- `run_llm` (src/app.py lines 127-210).  The only uncaught exception
is the `KeyError` from `EXPERTS[expert_key]` at line 209 when
`expert_key` is not a key of `EXPERTS`. -/
def run_llm (w : World) (user_text expert_key : String) : RunResult :=
  match resolve_openai_api_key w.secrets w.env with
  | (none, _) => ⟨Except.ok missingKeyMsg, w.env, []⟩
  | (some api_key, key_source) =>
    let env1 := envSet w.env "OPENAI_API_KEY" api_key
    match w.importErr with
    | some e =>
        ⟨Except.ok (importFailMsg e), env1,
         [Effect.setEnv "OPENAI_API_KEY" api_key, Effect.importLC]⟩
    | none =>
      let system_msg := ((List.lookup expert_key EXPERTS).getD personaA).system
      let messages := build_messages system_msg user_text
      match constructLoop w.ctorFails (ctorAttempts api_key) none with
      | (none, lastErr, ceffs) =>
          ⟨Except.ok (ctorFailMsg (optStr lastErr)), env1,
           Effect.setEnv "OPENAI_API_KEY" api_key :: Effect.importLC :: ceffs⟩
      | (some kw, _, ceffs) =>
        let c := w.client kw
        let ir := invokeClient c messages
        match ir.1 with
        | Except.error e =>
            ⟨Except.ok (invokeFailMsg e w.tb), env1,
             Effect.setEnv "OPENAI_API_KEY" api_key :: Effect.importLC ::
               (ceffs ++ ir.2)⟩
        | Except.ok resp =>
          let answer := extract_text resp
          match List.lookup expert_key EXPERTS with
          | some p =>
              ⟨Except.ok (answer ++ metaSuffix p.label key_source), env1,
               Effect.setEnv "OPENAI_API_KEY" api_key :: Effect.importLC ::
                 (ceffs ++ ir.2)⟩
          | none =>
              ⟨Except.error ("KeyError: " ++ expert_key), env1,
               Effect.setEnv "OPENAI_API_KEY" api_key :: Effect.importLC ::
                 (ceffs ++ ir.2)⟩

/-- A response carrying a direct `content` attribute `"Hello"`. -/
def respHello : Resp :=
  { content := some "Hello", isDict := false, dictContent := none,
    generations := none, str := "resp", raisesDuringExtract := false }

/-- A client whose `invoke` succeeds with `respHello`. -/
def okClient : ClientBehavior :=
  { invokeRes := Except.ok respHello, callRes := Except.error "no-call",
    hasPredict := false, predictRes := Except.error "no-predict",
    hasGenerate := false, generateRes := Except.error "no-generate" }

/-- A secrets store that is entirely absent. -/
def noStore : SecretsCfg := ⟨false, false, none, false, false, none⟩

/-- Scenario-A world: credential in the environment only, imports fine,
first construction succeeds, `invoke` succeeds with `respHello`. -/
def wOK : World :=
  { secrets := noStore,
    env := [("OPENAI_API_KEY", "sk-test")],
    importErr := none,
    ctorFails := fun _ => none,
    client := fun _ => okClient,
    tb := "tb" }

/-- A world with no credential anywhere. -/
def wEmpty : World :=
  { secrets := noStore, env := [], importErr := none,
    ctorFails := fun _ => none, client := fun _ => okClient, tb := "tb" }

/-- A world in which every client construction attempt raises. -/
def wCtorFail : World :=
  { secrets := noStore,
    env := [("OPENAI_API_KEY", "sk-test")],
    importErr := none,
    ctorFails := fun _ => some "boom",
    client := fun _ => okClient,
    tb := "tb" }

/-- A response reachable only through `generate`. -/
def respGen : Resp :=
  { content := some "GEN", isDict := false, dictContent := none,
    generations := none, str := "gen", raisesDuringExtract := false }

/-- A client whose `invoke`, direct call and `predict_messages` all fail
while `generate` is supported and would succeed. -/
def predictFailClient : ClientBehavior :=
  { invokeRes := Except.error "e-invoke", callRes := Except.error "e-call",
    hasPredict := true, predictRes := Except.error "e-predict",
    hasGenerate := true, generateRes := Except.ok respGen }

/-- A world exercising the `predict_messages`-fails branch. -/
def wPredictFail : World :=
  { secrets := noStore,
    env := [("OPENAI_API_KEY", "sk-test")],
    importErr := none,
    ctorFails := fun _ => none,
    client := fun _ => predictFailClient,
    tb := "tb" }

/-- `run_llm` produced a string (no uncaught exception) and it is
non-empty. -/
def okNonempty : Except String String → Prop
  | Except.ok s => s ≠ ""
  | Except.error _ => False

/-- A secrets store holding a top-level key (used to exercise the
store-beats-environment priority). -/
def cfgBoth : SecretsCfg := ⟨true, false, some "sk-store", false, false, none⟩

/-- A secrets store whose access raises. -/
def cfgRaise : SecretsCfg := ⟨true, true, some "sk-store", false, false, none⟩

/-- An environment holding an API key. -/
def envWithKey : Env := [("OPENAI_API_KEY", "sk-env")]

/-- A mapping-shaped response with a `"content"` key. -/
def respDict : Resp :=
  { content := none, isDict := true, dictContent := some "D",
    generations := none, str := "sd", raisesDuringExtract := false }

/-- A batch-generations response whose first generation carries a nested
message content and a plain text field. -/
def respGens : Resp :=
  { content := none, isDict := false, dictContent := none,
    generations := some [[⟨some (some "M"), some "T"⟩]],
    str := "sg", raisesDuringExtract := false }

/-- A response of no recognized shape. -/
def respOpaque : Resp :=
  { content := none, isDict := false, dictContent := none,
    generations := none, str := "opq", raisesDuringExtract := false }

/-- A response whose introspection raises. -/
def respRaise : Resp :=
  { content := some "X", isDict := false, dictContent := none,
    generations := none, str := "sr", raisesDuringExtract := true }

/-- A world whose credential comes from the secrets store and whose
environment starts empty. -/
def wSecrets : World :=
  { secrets := cfgBoth, env := [], importErr := none,
    ctorFails := fun _ => none, client := fun _ => okClient, tb := "tb" }

/-! Helper lemmas shared by several claims. -/

theorem append_ne_empty_left (a b : String) (h : a ≠ "") : a ++ b ≠ "" := by
  intro he
  have hd : (a ++ b).data = [] := by rw [he]
  rw [String.data_append] at hd
  rcases List.append_eq_nil.mp hd with ⟨h1, _⟩
  exact h (String.ext h1)

theorem append_ne_empty_right (a b : String) (h : b ≠ "") : a ++ b ≠ "" := by
  intro he
  have hd : (a ++ b).data = [] := by rw [he]
  rw [String.data_append] at hd
  rcases List.append_eq_nil.mp hd with ⟨_, h2⟩
  exact h (String.ext h2)

theorem metaSuffix_ne_empty (label source : String) :
    metaSuffix label source ≠ "" := by
  unfold metaSuffix
  apply append_ne_empty_right
  decide

theorem importFailMsg_ne_empty (e : String) : importFailMsg e ≠ "" := by
  unfold importFailMsg
  apply append_ne_empty_left
  decide

theorem ctorFailMsg_ne_empty (e : String) : ctorFailMsg e ≠ "" := by
  unfold ctorFailMsg
  apply append_ne_empty_left
  decide

theorem invokeFailMsg_ne_empty (e tb : String) : invokeFailMsg e tb ≠ "" := by
  unfold invokeFailMsg
  apply append_ne_empty_left
  apply append_ne_empty_left
  apply append_ne_empty_left
  decide

/-- Claim C4: for every non-empty user text and every persona, the
prompt is exactly two messages: first SYSTEM carrying the persona's
system instruction, second USER carrying the user text unmodified
(src/app.py line 149). -/
theorem C4_prompt_builder (p : Persona) (t : String) (_h : t ≠ "") :
    build_messages p.system t = [⟨Role.system, p.system⟩, ⟨Role.user, t⟩] ∧
    (build_messages p.system t).length = 2 ∧
    (build_messages p.system t).get? 0 = some ⟨Role.system, p.system⟩ ∧
    (build_messages p.system t).get? 1 = some ⟨Role.user, t⟩ :=
  ⟨rfl, rfl, rfl, rfl⟩

theorem C4_prompt_builder_witness :
    "hi" ≠ "" ∧
    build_messages personaA.system "hi" =
      [⟨Role.system, personaA.system⟩, ⟨Role.user, "hi"⟩] :=
  ⟨by decide, (C4_prompt_builder personaA "hi" (by decide)).1⟩

/-- Claim C8: when no credential is found, `run_llm` returns the fixed
instructional message and stops — the environment is untouched and the
effect trace is empty, so no import, no construction and no invocation
happen (src/app.py lines 129-131). -/
theorem C8_missing_key (w : World) (t k : String)
    (h : (resolve_openai_api_key w.secrets w.env).1 = none) :
    run_llm w t k = ⟨Except.ok missingKeyMsg, w.env, []⟩ := by
  unfold run_llm
  rcases hr : resolve_openai_api_key w.secrets w.env with ⟨v, s⟩
  rw [hr] at h
  cases v with
  | none => rfl
  | some x => exact absurd h (by simp)

theorem C8_missing_key_witness :
    (resolve_openai_api_key wEmpty.secrets wEmpty.env).1 = none ∧
    run_llm wEmpty "hi" "A" = ⟨Except.ok missingKeyMsg, wEmpty.env, []⟩ :=
  ⟨rfl, C8_missing_key wEmpty "hi" "A" rfl⟩

/-- Claim C3: `resolve_openai_api_key` follows strict priority — the
store's top-level `OPENAI_API_KEY`, then the store's nested
`openai.api_key` (only consulted when the top-level one is falsy), then
the environment variable, else missing; the store beats the environment
(the environment is arbitrary in the first two parts); a store access
error is swallowed and behaves exactly like an absent store
(src/app.py lines 71-86). -/
theorem C3_credential_priority (cfg : SecretsCfg) (env : Env) :
    (cfg.raises = false → cfg.hasSecrets = true → truthyO cfg.topKey = true →
       resolve_openai_api_key cfg env = (cfg.topKey, "secrets")) ∧
    (cfg.raises = false → cfg.hasSecrets = true → truthyO cfg.topKey = false →
       cfg.hasOpenaiBlock = true → cfg.blockIsDict = true →
       truthyO cfg.blockApiKey = true →
       resolve_openai_api_key cfg env = (cfg.blockApiKey, "secrets")) ∧
    (resolveFromSecrets cfg = none →
       truthyO (envGet env "OPENAI_API_KEY") = true →
       resolve_openai_api_key cfg env = (envGet env "OPENAI_API_KEY", "env")) ∧
    (resolveFromSecrets cfg = none →
       truthyO (envGet env "OPENAI_API_KEY") = false →
       resolve_openai_api_key cfg env = (none, "missing")) ∧
    (cfg.raises = true →
       resolve_openai_api_key cfg env = resolve_openai_api_key noStore env) := by
  refine ⟨?_, ?_, ?_, ?_, ?_⟩
  · intro h1 h2 h3
    cases htk : cfg.topKey with
    | none => rw [htk] at h3; exact absurd h3 (by decide)
    | some k =>
      rw [htk] at h3
      simp [resolve_openai_api_key, resolveFromSecrets, secretsKeyLookup,
            h1, h2, h3, htk]
  · intro h1 h2 h3 h4 h5 h6
    cases hbk : cfg.blockApiKey with
    | none => rw [hbk] at h6; exact absurd h6 (by decide)
    | some k =>
      rw [hbk] at h6
      simp [resolve_openai_api_key, resolveFromSecrets, secretsKeyLookup,
            h1, h2, h3, h4, h5, h6, hbk]
  · intro h1 h2
    simp [resolve_openai_api_key, h1, h2]
  · intro h1 h2
    simp [resolve_openai_api_key, h1, h2]
  · intro h1
    simp [resolve_openai_api_key, resolveFromSecrets, noStore, h1]

theorem C3_credential_priority_witness :
    resolve_openai_api_key cfgBoth envWithKey = (some "sk-store", "secrets") ∧
    resolve_openai_api_key noStore envWithKey = (some "sk-env", "env") ∧
    resolve_openai_api_key noStore [] = (none, "missing") ∧
    resolve_openai_api_key cfgRaise envWithKey =
      resolve_openai_api_key noStore envWithKey :=
  ⟨(C3_credential_priority cfgBoth envWithKey).1 rfl rfl (by decide),
   (C3_credential_priority noStore envWithKey).2.2.1 rfl (by decide),
   (C3_credential_priority noStore []).2.2.2.1 rfl (by decide),
   (C3_credential_priority cfgRaise envWithKey).2.2.2.2 rfl⟩

/-- Claim C5: the extraction step probes, in priority order, a direct
`content` attribute, then a mapping's `"content"` key, then the first
generation of the first batch (nested message content, else its `text`
field), and otherwise falls back to the string representation; an
introspection error also yields the string representation, so it never
raises (src/app.py lines 186-207). -/
theorem C5_extract_shapes (r : Resp) :
    (r.raisesDuringExtract = false →
       ∀ c, r.content = some c → extract_text r = c) ∧
    (r.raisesDuringExtract = false → r.content = none → r.isDict = true →
       ∀ c, r.dictContent = some c → extract_text r = c) ∧
    (r.raisesDuringExtract = false → r.content = none →
       (r.isDict = false ∨ r.dictContent = none) →
       ∀ g0 gs rest, r.generations = some ((g0 :: gs) :: rest) →
         (∀ c, g0.message = some (some c) → extract_text r = c) ∧
         ((g0.message = none ∨ g0.message = some none) →
            ∀ t, g0.text = some t → extract_text r = t) ∧
         ((g0.message = none ∨ g0.message = some none) → g0.text = none →
            extract_text r = r.str)) ∧
    (r.raisesDuringExtract = false → r.content = none →
       (r.isDict = false ∨ r.dictContent = none) → r.generations = none →
       extract_text r = r.str) ∧
    (r.raisesDuringExtract = true → extract_text r = r.str) := by
  refine ⟨?_, ?_, ?_, ?_, ?_⟩
  · intro h1 c hc
    simp [extract_text, h1, hc]
  · intro h1 h2 h3 c hc
    simp [extract_text, h1, h2, h3, hc]
  · intro h1 h2 h3 g0 gs rest hg
    have hdc : (r.isDict && r.dictContent.isSome) = false := by
      rcases h3 with h | h <;> simp [h]
    refine ⟨?_, ?_, ?_⟩
    · intro c hm
      simp [extract_text, h1, h2, hdc, hg, hm]
    · intro hm t ht
      rcases hm with h | h <;> simp [extract_text, h1, h2, hdc, hg, h, ht]
    · intro hm ht
      rcases hm with h | h <;> simp [extract_text, h1, h2, hdc, hg, h, ht]
  · intro h1 h2 h3 h4
    have hdc : (r.isDict && r.dictContent.isSome) = false := by
      rcases h3 with h | h <;> simp [h]
    simp [extract_text, h1, h2, hdc, h4]
  · intro h1
    simp [extract_text, h1]

theorem C5_extract_shapes_witness :
    extract_text respHello = "Hello" ∧
    extract_text respDict = "D" ∧
    extract_text respGens = "M" ∧
    extract_text respOpaque = "opq" ∧
    extract_text respRaise = "sr" :=
  ⟨(C5_extract_shapes respHello).1 rfl "Hello" rfl,
   (C5_extract_shapes respDict).2.1 rfl rfl rfl "D" rfl,
   ((C5_extract_shapes respGens).2.2.1 rfl rfl (Or.inl rfl)
      ⟨some (some "M"), some "T"⟩ [] [] rfl).1 "M" rfl,
   (C5_extract_shapes respOpaque).2.2.2.1 rfl rfl (Or.inl rfl) rfl,
   (C5_extract_shapes respRaise).2.2.2.2 rfl⟩

theorem envGet_envSet_same (e : Env) (k v : String) :
    envGet (envSet e k v) k = some v := by
  simp [envGet, envSet, List.lookup]

theorem lookup_filter_ne (e : Env) (k k' : String) (h : k' ≠ k) :
    List.lookup k' (List.filter (fun p => p.1 ≠ k) e) = List.lookup k' e := by
  induction e with
  | nil => rfl
  | cons a rest ih =>
    rcases a with ⟨a1, a2⟩
    simp only [decide_not] at ih ⊢
    by_cases ha : a1 = k
    · subst ha
      have hk : (k' == a1) = false := beq_eq_false_iff_ne.mpr h
      simp [List.filter_cons, List.lookup, hk, ih]
    · cases hbeq : (k' == a1) <;>
        simp [List.filter_cons, List.lookup, ha, hbeq, ih]

theorem envGet_envSet_other (e : Env) (k v k' : String) (h : k' ≠ k) :
    envGet (envSet e k v) k' = envGet e k' := by
  simp only [envGet, envSet, List.lookup, beq_eq_false_iff_ne.mpr h]
  exact lookup_filter_ne e k k' h

theorem resolveFromSecrets_truthy {cfg : SecretsCfg} {k : String}
    (h : resolveFromSecrets cfg = some k) : k ≠ "" := by
  by_cases hr : cfg.raises
  · simp [resolveFromSecrets, hr] at h
  · by_cases hs : cfg.hasSecrets
    · simp only [resolveFromSecrets, hr, hs, Bool.false_eq_true, if_false,
        if_true, reduceIte] at h
      by_cases ht : truthyO (secretsKeyLookup cfg) = true
      · rw [if_pos ht] at h
        rw [h] at ht
        simpa [truthyO] using ht
      · rw [if_neg ht] at h
        exact absurd h (by simp)
    · simp [resolveFromSecrets, hr, hs] at h

theorem resolve_some_truthy {cfg : SecretsCfg} {env : Env} {k s : String}
    (h : resolve_openai_api_key cfg env = (some k, s)) : k ≠ "" := by
  unfold resolve_openai_api_key at h
  cases hfs : resolveFromSecrets cfg with
  | some k0 =>
    rw [hfs] at h
    have hk : k0 = k := by
      have h2 := congrArg Prod.fst h
      simpa using h2
    rw [← hk]
    exact resolveFromSecrets_truthy hfs
  | none =>
    rw [hfs] at h
    by_cases ht : truthyO (envGet env "OPENAI_API_KEY") = true
    · rw [if_pos ht] at h
      have hk : envGet env "OPENAI_API_KEY" = some k := by
        have h2 := congrArg Prod.fst h
        simpa using h2
      rw [hk] at ht
      simpa [truthyO] using ht
    · rw [if_neg ht] at h
      have h2 := congrArg Prod.fst h
      simp at h2

/-- Claim C10: whenever a credential is resolved, `run_llm` writes it
into the `OPENAI_API_KEY` environment variable as its very first effect
(before any import, construction or invocation); the mutation persists
in the returned environment, no other variable changes, and a later
resolution against that environment with the store gone reports the key
with source `"env"` even when it originally came from the store
(src/app.py line 132). -/
theorem C10_env_write (w : World) (t k key src : String)
    (h : resolve_openai_api_key w.secrets w.env = (some key, src)) :
    (run_llm w t k).env = envSet w.env "OPENAI_API_KEY" key ∧
    envGet (run_llm w t k).env "OPENAI_API_KEY" = some key ∧
    (∀ v, v ≠ "OPENAI_API_KEY" →
       envGet (run_llm w t k).env v = envGet w.env v) ∧
    (run_llm w t k).effects.head? = some (Effect.setEnv "OPENAI_API_KEY" key) ∧
    resolve_openai_api_key noStore (run_llm w t k).env = (some key, "env") := by
  have hmain : (run_llm w t k).env = envSet w.env "OPENAI_API_KEY" key ∧
      (run_llm w t k).effects.head? =
        some (Effect.setEnv "OPENAI_API_KEY" key) := by
    cases himp : w.importErr with
    | some e =>
      refine ⟨?_, ?_⟩ <;> simp [run_llm, h, himp]
    | none =>
      rcases hcl : constructLoop w.ctorFails (ctorAttempts key) none with ⟨c1, cr⟩
      cases c1 with
      | none =>
        refine ⟨?_, ?_⟩ <;> simp [run_llm, h, himp, hcl]
      | some kw =>
        refine ⟨?_, ?_⟩ <;>
          (simp only [run_llm, h, himp, hcl]; split <;> (try split) <;> rfl)
  have hk : key ≠ "" := resolve_some_truthy h
  refine ⟨hmain.1, ?_, ?_, hmain.2, ?_⟩
  · rw [hmain.1]
    exact envGet_envSet_same _ _ _
  · intro v hv
    rw [hmain.1]
    exact envGet_envSet_other _ _ _ _ hv
  · rw [hmain.1]
    simp [resolve_openai_api_key, resolveFromSecrets, noStore,
          envGet_envSet_same, truthyO, hk]

theorem C10_env_write_witness :
    resolve_openai_api_key wSecrets.secrets wSecrets.env =
      (some "sk-store", "secrets") ∧
    (run_llm wSecrets "hi" "A").env =
      envSet wSecrets.env "OPENAI_API_KEY" "sk-store" ∧
    resolve_openai_api_key noStore (run_llm wSecrets "hi" "A").env =
      (some "sk-store", "env") :=
  ⟨rfl,
   (C10_env_write wSecrets "hi" "A" "sk-store" "secrets" rfl).1,
   (C10_env_write wSecrets "hi" "A" "sk-store" "secrets" rfl).2.2.2.2⟩

/-- Claim C1: for every world — every combination of credential
presence, client constructibility, invocation outcome and response
shape — and every user text and registered persona code, `run_llm`
returns a non-empty string and raises no exception: every failure path
terminates in a descriptive string (src/app.py lines 127-210). -/
theorem C1_no_crash (w : World) (t k : String)
    (h : (List.lookup k EXPERTS).isSome) :
    okNonempty (run_llm w t k).out := by
  rcases hr : resolve_openai_api_key w.secrets w.env with ⟨v, s⟩
  cases v with
  | none =>
    simp only [run_llm, hr, okNonempty]
    decide
  | some key =>
    cases himp : w.importErr with
    | some e =>
      simp only [run_llm, hr, himp, okNonempty]
      exact importFailMsg_ne_empty e
    | none =>
      rcases hcl : constructLoop w.ctorFails (ctorAttempts key) none with ⟨c1, cr⟩
      cases c1 with
      | none =>
        simp only [run_llm, hr, himp, hcl, okNonempty]
        exact ctorFailMsg_ne_empty _
      | some kw =>
        cases hlk : List.lookup k EXPERTS with
        | none => rw [hlk] at h; simp at h
        | some p =>
          cases hiv : (invokeClient (w.client kw)
              (build_messages p.system t)).1 with
          | error e =>
            simp only [run_llm, hr, himp, hcl, hlk, Option.getD_some, hiv,
              okNonempty]
            exact invokeFailMsg_ne_empty e w.tb
          | ok resp =>
            simp only [run_llm, hr, himp, hcl, hlk, Option.getD_some, hiv,
              okNonempty]
            exact append_ne_empty_right _ _ (metaSuffix_ne_empty _ _)

theorem C1_no_crash_witness :
    (List.lookup "A" EXPERTS).isSome = true ∧
    okNonempty (run_llm wEmpty "hi" "A").out :=
  ⟨by decide, C1_no_crash wEmpty "hi" "A" (by decide)⟩

theorem constructLoop_find (fails : CtorKwargs → Option String)
    (l : List CtorKwargs) (init : Option String) :
    (constructLoop fails l init).1 = l.find? fun kw => (fails kw).isNone := by
  induction l generalizing init with
  | nil => rfl
  | cons kw rest ih =>
    simp only [constructLoop, List.find?]
    cases hf : fails kw with
    | none => simp [hf]
    | some e => simp [hf, ih]

/-- Claim C6: construction tries exactly the four keyword signatures
`(model, temperature)`, `(model_name, temperature)` and the same two
with `openai_api_key` added, in that order, each with model
`"gpt-4o-mini"` and temperature `0.3`; the first success wins (the
chosen client is the first attempt whose construction does not raise);
when all four fail, `run_llm` returns the diagnostic carrying the last
construction error and the effect trace shows the four attempts in
order and no invocation at all (src/app.py lines 152-166). -/
theorem C6_ctor_probe :
    (∀ api_key, ctorAttempts api_key =
       [⟨"model", "gpt-4o-mini", 3/10, none⟩,
        ⟨"model_name", "gpt-4o-mini", 3/10, none⟩,
        ⟨"model", "gpt-4o-mini", 3/10, some api_key⟩,
        ⟨"model_name", "gpt-4o-mini", 3/10, some api_key⟩]) ∧
    (∀ fails l init,
       (constructLoop fails (l : List CtorKwargs) init).1 =
         l.find? fun kw => (fails kw).isNone) ∧
    (∀ (w : World) t k key src e1 e2 e3 e4,
       resolve_openai_api_key w.secrets w.env = (some key, src) →
       w.importErr = none →
       w.ctorFails ⟨"model", "gpt-4o-mini", 3/10, none⟩ = some e1 →
       w.ctorFails ⟨"model_name", "gpt-4o-mini", 3/10, none⟩ = some e2 →
       w.ctorFails ⟨"model", "gpt-4o-mini", 3/10, some key⟩ = some e3 →
       w.ctorFails ⟨"model_name", "gpt-4o-mini", 3/10, some key⟩ = some e4 →
       (run_llm w t k).out = Except.ok (ctorFailMsg e4) ∧
       (run_llm w t k).effects =
         [Effect.setEnv "OPENAI_API_KEY" key, Effect.importLC,
          Effect.construct ⟨"model", "gpt-4o-mini", 3/10, none⟩,
          Effect.construct ⟨"model_name", "gpt-4o-mini", 3/10, none⟩,
          Effect.construct ⟨"model", "gpt-4o-mini", 3/10, some key⟩,
          Effect.construct ⟨"model_name", "gpt-4o-mini", 3/10, some key⟩]) := by
  refine ⟨fun _ => rfl, constructLoop_find, ?_⟩
  intro w t k key src e1 e2 e3 e4 hres himp h1 h2 h3 h4
  have hloop : constructLoop w.ctorFails (ctorAttempts key) none =
      (none, some e4,
       [Effect.construct ⟨"model", "gpt-4o-mini", 3/10, none⟩,
        Effect.construct ⟨"model_name", "gpt-4o-mini", 3/10, none⟩,
        Effect.construct ⟨"model", "gpt-4o-mini", 3/10, some key⟩,
        Effect.construct ⟨"model_name", "gpt-4o-mini", 3/10, some key⟩]) := by
    simp [constructLoop, ctorAttempts, h1, h2, h3, h4]
  refine ⟨?_, ?_⟩ <;> simp [run_llm, hres, himp, hloop, optStr]

theorem C6_ctor_probe_witness :
    ctorAttempts "sk-test" =
      [⟨"model", "gpt-4o-mini", 3/10, none⟩,
       ⟨"model_name", "gpt-4o-mini", 3/10, none⟩,
       ⟨"model", "gpt-4o-mini", 3/10, some "sk-test"⟩,
       ⟨"model_name", "gpt-4o-mini", 3/10, some "sk-test"⟩] ∧
    (run_llm wCtorFail "hi" "A").out = Except.ok (ctorFailMsg "boom") ∧
    (run_llm wCtorFail "hi" "A").effects =
      [Effect.setEnv "OPENAI_API_KEY" "sk-test", Effect.importLC,
       Effect.construct ⟨"model", "gpt-4o-mini", 3/10, none⟩,
       Effect.construct ⟨"model_name", "gpt-4o-mini", 3/10, none⟩,
       Effect.construct ⟨"model", "gpt-4o-mini", 3/10, some "sk-test"⟩,
       Effect.construct ⟨"model_name", "gpt-4o-mini", 3/10, some "sk-test"⟩] :=
  ⟨C6_ctor_probe.1 "sk-test",
   (C6_ctor_probe.2.2 wCtorFail "hi" "A" "sk-test" "env"
      "boom" "boom" "boom" "boom" rfl rfl rfl rfl rfl rfl).1,
   (C6_ctor_probe.2.2 wCtorFail "hi" "A" "sk-test" "env"
      "boom" "boom" "boom" "boom" rfl rfl rfl rfl rfl rfl).2⟩

/-- Claim C7 counterexample: in a world where `invoke`, the direct call
and `predict_messages` all fail while `generate` is supported and would
succeed, `run_llm` returns the invocation-failed diagnostic — `generate`
is never attempted (no `callGenerate` effect), contradicting the claim
that on failure of `predict_messages` the `generate` form is tried and
the first success wins (src/app.py lines 176-179: a `predict_messages`
exception escapes past the `elif`). -/
theorem C7_invoke_chain_cex :
    predictFailClient.hasPredict = true ∧
    predictFailClient.predictRes = Except.error "e-predict" ∧
    predictFailClient.hasGenerate = true ∧
    predictFailClient.generateRes = Except.ok respGen ∧
    (run_llm wPredictFail "hi" "A").out =
      Except.ok (invokeFailMsg "e-predict" "tb") ∧
    ((run_llm wPredictFail "hi" "A").effects.contains
      (Effect.callGenerate [build_messages personaA.system "hi"])) = false ∧
    invokeFailMsg "e-predict" "tb" ≠
      extract_text respGen ++ metaSuffix personaA.label "env" :=
  ⟨rfl, rfl, rfl, rfl, rfl, by decide, by decide⟩

/-- Claim C7 as amended: invocation tries `invoke`, on failure the
direct-call form, on failure `predict_messages` when supported — whose
outcome, success or failure, is final, so `generate` is only reached
when `predict_messages` is unsupported; `generate` (with the messages
wrapped in a batch) is tried when supported, else a `RuntimeError`
results; each form is attempted at most once (the effect traces are
exact), and an error escaping the chain makes the orchestrator return
the invocation-failed diagnostic containing it
(src/app.py lines 168-184). -/
theorem C7_invoke_chain_amended :
    (∀ (c : ClientBehavior) msgs r, c.invokeRes = Except.ok r →
       invokeClient c msgs = (Except.ok r, [Effect.callInvoke msgs])) ∧
    (∀ (c : ClientBehavior) msgs e r, c.invokeRes = Except.error e →
       c.callRes = Except.ok r →
       invokeClient c msgs =
         (Except.ok r, [Effect.callInvoke msgs, Effect.callDirect msgs])) ∧
    (∀ (c : ClientBehavior) msgs e1 e2, c.invokeRes = Except.error e1 →
       c.callRes = Except.error e2 → c.hasPredict = true →
       invokeClient c msgs =
         (c.predictRes,
          [Effect.callInvoke msgs, Effect.callDirect msgs,
           Effect.callPredict msgs])) ∧
    (∀ (c : ClientBehavior) msgs e1 e2, c.invokeRes = Except.error e1 →
       c.callRes = Except.error e2 → c.hasPredict = false →
       c.hasGenerate = true →
       invokeClient c msgs =
         (c.generateRes,
          [Effect.callInvoke msgs, Effect.callDirect msgs,
           Effect.callGenerate [msgs]])) ∧
    (∀ (c : ClientBehavior) msgs e1 e2, c.invokeRes = Except.error e1 →
       c.callRes = Except.error e2 → c.hasPredict = false →
       c.hasGenerate = false →
       invokeClient c msgs =
         (Except.error noMethodMsg,
          [Effect.callInvoke msgs, Effect.callDirect msgs])) ∧
    (∀ (w : World) t k key src kw rest e,
       resolve_openai_api_key w.secrets w.env = (some key, src) →
       w.importErr = none →
       constructLoop w.ctorFails (ctorAttempts key) none = (some kw, rest) →
       (invokeClient (w.client kw)
          (build_messages ((List.lookup k EXPERTS).getD personaA).system t)).1 =
         Except.error e →
       (run_llm w t k).out = Except.ok (invokeFailMsg e w.tb)) := by
  refine ⟨?_, ?_, ?_, ?_, ?_, ?_⟩
  · intro c msgs r h1
    simp [invokeClient, h1]
  · intro c msgs e r h1 h2
    simp [invokeClient, h1, h2]
  · intro c msgs e1 e2 h1 h2 h3
    simp [invokeClient, h1, h2, h3]
  · intro c msgs e1 e2 h1 h2 h3 h4
    simp [invokeClient, h1, h2, h3, h4]
  · intro c msgs e1 e2 h1 h2 h3 h4
    simp [invokeClient, h1, h2, h3, h4]
  · intro w t k key src kw rest e hres himp hcl hiv
    simp [run_llm, hres, himp, hcl, hiv]

theorem C7_invoke_chain_amended_witness :
    invokeClient okClient (build_messages personaA.system "hi") =
      (Except.ok respHello,
       [Effect.callInvoke (build_messages personaA.system "hi")]) ∧
    invokeClient predictFailClient (build_messages personaA.system "hi") =
      (Except.error "e-predict",
       [Effect.callInvoke (build_messages personaA.system "hi"),
        Effect.callDirect (build_messages personaA.system "hi"),
        Effect.callPredict (build_messages personaA.system "hi")]) ∧
    (run_llm wPredictFail "hi" "A").out =
      Except.ok (invokeFailMsg "e-predict" "tb") :=
  ⟨C7_invoke_chain_amended.1 okClient _ respHello rfl,
   C7_invoke_chain_amended.2.2.1 predictFailClient _ "e-invoke" "e-call"
     rfl rfl rfl,
   C7_invoke_chain_amended.2.2.2.2.2 wPredictFail "hi" "A" "sk-test" "env"
     ⟨"model", "gpt-4o-mini", 3/10, none⟩
     (none, [Effect.construct ⟨"model", "gpt-4o-mini", 3/10, none⟩])
     "e-predict" rfl rfl rfl rfl⟩

/-- Claim C2 counterexample: an unknown persona code does not fall back
to the default throughout the pipeline — on an otherwise fully
successful run, `run_llm` raises an uncaught `KeyError` at the metadata
suffix lookup `EXPERTS[expert_key]` (src/app.py line 209) instead of
returning an answer. -/
theorem C2_persona_fallback_cex :
    List.lookup "Z" EXPERTS = none ∧
    (run_llm wOK "hi" "Z").out = Except.error ("KeyError: " ++ "Z") :=
  ⟨rfl, rfl⟩

/-- Claim C2 as amended: for a known persona code the exact matching
entry is used — its system instruction in the prompt and its label in
the metadata suffix; for an unknown code the default persona "A" is
used when building the prompt (the `get` with default at src/app.py
line 148), but the fallback does not hold throughout the pipeline: when
the run reaches the metadata step, the direct indexing at line 209
raises `KeyError`, so the pipeline fails rather than falling back. -/
theorem C2_persona_fallback_amended :
    (∀ k p, List.lookup k EXPERTS = some p →
       (run_llm wOK "hi" k).out =
         Except.ok ("Hello" ++ metaSuffix p.label "env") ∧
       Effect.callInvoke (build_messages p.system "hi") ∈
         (run_llm wOK "hi" k).effects) ∧
    (∀ k, List.lookup k EXPERTS = none →
       Effect.callInvoke (build_messages personaA.system "hi") ∈
         (run_llm wOK "hi" k).effects ∧
       (run_llm wOK "hi" k).out = Except.error ("KeyError: " ++ k)) := by
  have hres : resolve_openai_api_key wOK.secrets wOK.env =
      (some "sk-test", "env") := rfl
  have himp : wOK.importErr = none := rfl
  have hloop : constructLoop wOK.ctorFails (ctorAttempts "sk-test") none =
      (some ⟨"model", "gpt-4o-mini", 3/10, none⟩, none,
       [Effect.construct ⟨"model", "gpt-4o-mini", 3/10, none⟩]) := rfl
  have hiv : ∀ msgs,
      invokeClient (wOK.client ⟨"model", "gpt-4o-mini", 3/10, none⟩) msgs =
        (Except.ok respHello, [Effect.callInvoke msgs]) := fun _ => rfl
  have hex : extract_text respHello = "Hello" := rfl
  constructor
  · intro k p hlk
    refine ⟨?_, ?_⟩ <;>
      simp [run_llm, hres, himp, hloop, hlk, hiv, hex]
  · intro k hlk
    refine ⟨?_, ?_⟩ <;>
      simp [run_llm, hres, himp, hloop, hlk, hiv, hex]

theorem C2_persona_fallback_amended_witness :
    List.lookup "B" EXPERTS = some personaB ∧
    (run_llm wOK "hi" "B").out =
      Except.ok ("Hello" ++ metaSuffix personaB.label "env") ∧
    Effect.callInvoke (build_messages personaB.system "hi") ∈
      (run_llm wOK "hi" "B").effects ∧
    Effect.callInvoke (build_messages personaA.system "hi") ∈
      (run_llm wOK "hi" "Z").effects :=
  ⟨rfl,
   (C2_persona_fallback_amended.1 "B" personaB rfl).1,
   (C2_persona_fallback_amended.1 "B" personaB rfl).2,
   (C2_persona_fallback_amended.2 "Z" rfl).1⟩

/-- Claim C9: in the success scenario — credential present via the
environment only, client constructible and invocable, response carrying
direct text `"Hello"` — `run_llm "hi" "A"` returns a string that starts
with `"Hello"` and ends with the metadata suffix naming persona A's
label, the model `"gpt-4o-mini"`, and the credential source `"env"`
(src/app.py lines 209-210). -/
theorem C9_scenario_a :
    (run_llm wOK "hi" "A").out =
      Except.ok ("Hello" ++ metaSuffix personaA.label "env") ∧
    "Hello".data <+: ("Hello" ++ metaSuffix personaA.label "env").data ∧
    (metaSuffix personaA.label "env").data <:+
      ("Hello" ++ metaSuffix personaA.label "env").data ∧
    personaA.label = "A｜生成AI実装コンサルタント" ∧
    metaSuffix personaA.label "env" =
      "\n\n---\n（使用モード: A｜生成AI実装コンサルタント｜モデル: gpt-4o-mini｜キー取得元: env）" := by
  refine ⟨rfl, ?_, ?_, rfl, rfl⟩
  · rw [String.data_append]
    exact List.prefix_append _ _
  · rw [String.data_append]
    exact List.suffix_append _ _

end App
